import Mathlib

/-!
Verification of the configuration/validation core of the xoa RFC test suites
(plugin2544, plugin2889). Python pydantic models are shallowly embedded:
pure methods become Lean functions, pydantic field validators and `__init__`
bodies become an explicit `Except`-valued construction pipeline run in the
order pydantic runs them (fields in declaration order, validators for a field
in definition order, `info.data` containing only previously validated fields),
and Python `Decimal` arithmetic is embedded as `ℚ` with explicit half-even
rounding. Fields of the source models that no embedded operation reads are
omitted; every embedded operation follows the source line by line.
-/

set_option maxRecDepth 10000

namespace Plugin2544

/-- Modelled after `const.TrafficDirection` (plugin2544/utils/constants, used
by `dataset.py`): global traffic direction, east→west or west→east. -/
inductive TrafficDirection where
  | EAST_TO_WEST
  | WEST_TO_EAST
  deriving DecidableEq, Repr

/-- Modelled after `const.PortGroup` (plugin2544): the group tag of a port,
`is_east` / `is_west` test the two tags, `UNDEFINED` is neither. -/
inductive PortGroup where
  | EAST
  | WEST
  | UNDEFINED
  deriving DecidableEq, Repr

def PortGroup.is_east : PortGroup → Bool
  | .EAST => true
  | _ => false

def PortGroup.is_west : PortGroup → Bool
  | .WEST => true
  | _ => false

/-- Modelled after `const.TestTopology` (plugin2544): `PAIRS` is the pair
topology, `MESH` the mesh topology, `BLOCKS` the east/west grouped one. -/
inductive TestTopology where
  | PAIRS
  | BLOCKS
  | MESH
  deriving DecidableEq, Repr

def TestTopology.is_pair_topology : TestTopology → Bool
  | .PAIRS => true
  | _ => false

def TestTopology.is_mesh_topology : TestTopology → Bool
  | .MESH => true
  | _ => false

/-- Modelled after `const.FlowCreationType` (plugin2544): stream-based or
modifier-based flow creation; `is_stream_based` tests the former. -/
inductive FlowCreationType where
  | STREAM_BASED
  | MODIFIER_BASED
  deriving DecidableEq, Repr

def FlowCreationType.is_stream_based : FlowCreationType → Bool
  | .STREAM_BASED => true
  | _ => false

/-- Modelled after `const.RateResultScopeType` (plugin2544). -/
inductive RateResultScopeType where
  | COMMON_RESULT
  | PER_SOURCE_PORT
  deriving DecidableEq, Repr

/-- Modelled from the spec: `ProtocolSegmentProfileConfig.protocol_version`
(m_protocol_segment.py is not under src/) — "derives `protocol_version`
(none / IPv4 / IPv6) as the IP-family of the first IP-bearing segment, and
`is_l3` as 'profile contains an IP segment'". -/
inductive ProtocolVersion where
  | NONE
  | IPV4
  | IPV6
  deriving DecidableEq, Repr

def ProtocolVersion.is_l3 : ProtocolVersion → Bool
  | .NONE => false
  | _ => true

/-- Modelled from the spec: `ProtocolSegmentProfileConfig`
(m_protocol_segment.py is not under src/) — "identified by an opaque profile
id", deriving `protocol_version`. The parameterless constructor used as the
ports' default `_profile` has no segments, hence protocol version none. -/
structure ProtocolSegmentProfileConfig where
  id : String := ""
  protocol_version : ProtocolVersion := .NONE
  deriving DecidableEq, Repr

/-- Modelled from the spec: the IPv4/IPv6 address value type of
`IPAddressProperties.address` (utils/field.py is not under src/) —
"immutable; constructed from text or integer form; `is_empty` means
'all-zero address'". Embedded as the address's integer form. -/
structure IPAddr where
  address_int : Nat
  deriving DecidableEq, Repr

def IPAddr.is_empty (a : IPAddr) : Bool := a.address_int == 0

/-- `IPAddressProperties` of m_port_config.py, restricted to the `address`
field, the only one the embedded validators read. -/
structure IPAddressProperties where
  address : IPAddr := ⟨0⟩
  deriving DecidableEq, Repr

/-- `PortConfiguration` of m_port_config.py restricted to the fields the
embedded operations read. `_is_tx` / `_is_rx` default `True`; `_profile`
defaults to the parameterless `ProtocolSegmentProfileConfig()`. -/
structure PortConfiguration where
  port_slot : Nat
  peer_slot : Option Nat
  port_group : PortGroup
  ip_address : Option IPAddressProperties
  protocol_segment_profile_id : String
  profile : ProtocolSegmentProfileConfig := {}
  is_tx : Bool := true
  is_rx : Bool := true
  deriving DecidableEq, Repr

def PortConfiguration.is_loop (p : PortConfiguration) : Bool :=
  -- `self.port_slot == self.peer_slot`; `None == int` is `False` in Python
  match p.peer_slot with
  | some s => p.port_slot == s
  | none => false

def PortConfiguration.is_pair (p peer_config : PortConfiguration) : Bool :=
  -- `peer_config.peer_slot == self.port_slot`
  match peer_config.peer_slot with
  | some s => s == p.port_slot
  | none => false

def PortConfiguration.set_tx_port (p : PortConfiguration) (value : Bool) :
    PortConfiguration := { p with is_tx := value }

def PortConfiguration.set_rx_port (p : PortConfiguration) (value : Bool) :
    PortConfiguration := { p with is_rx := value }

/-- Body of the `for` loop of `PluginModel2544.set_ports_rx_tx_type`, applied
to one port configuration (the loop mutates each element in place). -/
def resolve_one_port (direction : TrafficDirection) (port_config : PortConfiguration) :
    PortConfiguration :=
  if port_config.is_loop then
    port_config
  else if direction = .EAST_TO_WEST then
    if port_config.port_group.is_east then
      port_config.set_rx_port false
    else if port_config.port_group.is_west then
      port_config.set_tx_port false
    else port_config
  else -- direction == WEST_TO_EAST
    if port_config.port_group.is_east then
      port_config.set_tx_port false
    else if port_config.port_group.is_west then
      port_config.set_rx_port false
    else port_config

/-- `PluginModel2544.set_ports_rx_tx_type`: iterates the port configurations,
narrowing the TX/RX flags of each non-loop port per the global direction. -/
def set_ports_rx_tx_type (direction : TrafficDirection)
    (ports_configuration : List PortConfiguration) : List PortConfiguration :=
  ports_configuration.map (resolve_one_port direction)

/-- The named validation failures of plugin2544 (`utils/exceptions`), plus
`IndexError` for the bare Python `IndexError` that `[...][0]` raises on an
empty comprehension in `set_profile`. -/
inductive PluginError where
  | PSPMissing
  | IPAddressMissing
  | PortConfigNotEnough (required : Nat)
  | ModifierBasedNotSupportL3
  | PortGroupNeeded
  | TestTypesError
  | ModifierBasedNotSupportPerPortResult
  | PortGroupError (group : String)
  | PortPeerNeeded
  | PortPeerInconsistent
  | IndexError
  deriving DecidableEq, Repr

/-- Modelled from the spec: `TestConfigModel` (m_test_config.py is not under
src/) restricted to the global settings the embedded validators read —
"topology kind (pair / mesh / role-counted), traffic direction, flow-creation
kind" (spec §6). -/
structure TestConfigModel where
  topology : TestTopology
  direction : TrafficDirection
  flow_creation_type : FlowCreationType
  deriving DecidableEq, Repr

/-- `ThroughputTest` of m_test_type_config.py restricted to the fields read
by the `PluginModel2544` validators (`enabled`, the rate-iteration result
scope). -/
structure ThroughputTest where
  enabled : Bool
  result_scope : RateResultScopeType
  deriving DecidableEq, Repr

/-- `TestTypesConfiguration` of m_test_type_config.py restricted to the
fields read by the `PluginModel2544` validators: the four per-test `enabled`
flags and the throughput rate-iteration options. -/
structure TestTypesConfiguration where
  throughput_test : ThroughputTest
  latency_test_enabled : Bool
  frame_loss_rate_test_enabled : Bool
  back_to_back_test_enabled : Bool
  deriving DecidableEq, Repr

/-- The raw field data handed to `PluginModel2544(**data)`. -/
structure RawPluginModel2544 where
  test_configuration : TestConfigModel
  protocol_segments : List ProtocolSegmentProfileConfig
  ports_configuration : List PortConfiguration
  test_types_configuration : TestTypesConfiguration
  deriving DecidableEq, Repr

/-- The fully constructed `PluginModel2544` (ports carry resolved TX/RX flags
and bound profiles). -/
structure PluginModel2544 where
  test_configuration : TestConfigModel
  protocol_segments : List ProtocolSegmentProfileConfig
  ports_configuration : List PortConfiguration
  test_types_configuration : TestTypesConfiguration
  deriving DecidableEq, Repr

/-- Validator `check_ip_properties` on `ports_configuration`: builds
`pro_map = {segment.id: segment.protocol_version}` from the already-validated
`protocol_segments`, then for each port raises `PSPMissing` when its profile
id is absent, and `IPAddressMissing` when the referenced profile is layer-3
but the port has no (or an all-zero) IP address. -/
def check_ip_properties (protocol_segments : List ProtocolSegmentProfileConfig)
    (value : List PortConfiguration) : Except PluginError Unit := do
  for port_config in value do
    -- pro_map is a dict comprehension, so a duplicated id keeps the last entry
    match protocol_segments.reverse.find?
        (fun v => v.id == port_config.protocol_segment_profile_id) with
    | none => throw .PSPMissing
    | some seg =>
      if seg.protocol_version.is_l3
          && (port_config.ip_address.isNone
              || (port_config.ip_address.map (fun ip => ip.address.is_empty)).getD false) then
        throw .IPAddressMissing

/-- Validator `check_port_count` on `ports_configuration`: with the
already-validated `test_configuration` in scope, requires 1 port for a pair
topology and 2 otherwise, raising `PortConfigNotEnough`. -/
def check_port_count (test_configuration : TestConfigModel)
    (value : List PortConfiguration) : Except PluginError Unit :=
  let require_ports := 2
  let require_ports := if test_configuration.topology.is_pair_topology then 1 else require_ports
  if value.length < require_ports then throw (.PortConfigNotEnough require_ports)
  else pure ()

/-- Validator `check_modifier_mode_and_segments` on `ports_configuration`:
when flow creation is not stream-based, raises `ModifierBasedNotSupportL3`
for a port whose `profile` attribute is layer-3. It reads each port's
current `_profile` private attribute — which, at field-validation time, is
still the default `ProtocolSegmentProfileConfig()` because `set_profile`
only runs later in `__init__`, after `super().__init__`. -/
def check_modifier_mode_and_segments (test_configuration : TestConfigModel)
    (value : List PortConfiguration) : Except PluginError Unit := do
  let flow_creation_type := test_configuration.flow_creation_type
  for port_config in value do
    if (!flow_creation_type.is_stream_based) && port_config.profile.protocol_version.is_l3 then
      throw .ModifierBasedNotSupportL3

/-- Validator `check_port_group` on `ports_configuration`: its body is
guarded by `"ports_configuration" in info.data`, but pydantic's `info.data`
holds only the fields validated before the one being validated, so the guard
is false while `ports_configuration` itself is validated and the body never
runs. -/
def check_port_group_validator (_value : List PortConfiguration) :
    Except PluginError Unit :=
  pure ()

/-- Validator `check_test_type_enable` on `test_types_configuration`: at
least one of the four test types must be enabled, else `TestTypesError`. -/
def check_test_type_enable (v : TestTypesConfiguration) : Except PluginError Unit :=
  if !(v.throughput_test.enabled || v.latency_test_enabled
      || v.frame_loss_rate_test_enabled || v.back_to_back_test_enabled) then
    throw .TestTypesError
  else pure ()

/-- Validator `check_result_scope` on `test_types_configuration`: an enabled
throughput test with per-source-port result scope under non-stream-based
flow creation raises `ModifierBasedNotSupportPerPortResult`. -/
def check_result_scope (test_configuration : TestConfigModel)
    (value : TestTypesConfiguration) : Except PluginError Unit :=
  if value.throughput_test.enabled
      && value.throughput_test.result_scope == .PER_SOURCE_PORT
      && !test_configuration.flow_creation_type.is_stream_based then
    throw .ModifierBasedNotSupportPerPortResult
  else pure ()

/-- `PluginModel2544.count_port_group`: tallies a port into the east/west
counts, double-counting a loop port on the other side when peering is in
effect. -/
def count_port_group (port_config : PortConfiguration) (uses_port_peer : Bool)
    (ports_in_east ports_in_west : Nat) : Nat × Nat :=
  if port_config.port_group.is_east then
    let ports_in_east := ports_in_east + 1
    let ports_in_west :=
      if uses_port_peer && port_config.is_loop then ports_in_west + 1 else ports_in_west
    (ports_in_east, ports_in_west)
  else if port_config.port_group.is_west then
    let ports_in_west := ports_in_west + 1
    let ports_in_east :=
      if uses_port_peer && port_config.is_loop then ports_in_east + 1 else ports_in_east
    (ports_in_east, ports_in_west)
  else (ports_in_east, ports_in_west)

/-- `PluginModel2544.check_port_peer`: the peer slot must be set and in
range (`PortPeerNeeded`), and the peer relation mutually consistent
(`PortPeerInconsistent`). -/
def check_port_peer (port_config : PortConfiguration)
    (ports_configuration : List PortConfiguration) : Except PluginError Unit :=
  match port_config.peer_slot with
  | none => throw .PortPeerNeeded
  | some peer_slot =>
    if peer_slot ≥ ports_configuration.length then throw .PortPeerNeeded
    else
      match ports_configuration[peer_slot]? with
      | none => throw .IndexError
      | some peer_config =>
        if !(port_config.is_pair peer_config) || !(peer_config.is_pair port_config) then
          throw .PortPeerInconsistent
        else pure ()

/-- `PluginModel2544.check_port_groups_and_peers`: tallies east/west groups
over all ports for non-mesh topologies (raising `PortGroupError` when a
group is empty) and checks peer consistency for pair topologies. -/
def check_port_groups_and_peers (test_configuration : TestConfigModel)
    (ports_configuration : List PortConfiguration) : Except PluginError Unit := do
  let topology := test_configuration.topology
  let mut ports_in_east := 0
  let mut ports_in_west := 0
  let uses_port_peer := topology.is_pair_topology
  for port_config in ports_configuration do
    if !topology.is_mesh_topology then
      let counts := count_port_group port_config uses_port_peer ports_in_east ports_in_west
      ports_in_east := counts.1
      ports_in_west := counts.2
    if uses_port_peer then
      check_port_peer port_config ports_configuration
  if !topology.is_mesh_topology then
    if ports_in_east == 0 then throw (.PortGroupError "East")
    if ports_in_west == 0 then throw (.PortGroupError "West")

/-- `PluginModel2544.set_profile`: binds each port to a deep copy of the
first protocol segment profile whose id matches; the comprehension's `[0]`
raises a bare `IndexError` when no profile matches. (The deep copy is value
semantics; aliasing is modelled explicitly in `ProfileHeap` below.) -/
def set_profile (protocol_segments : List ProtocolSegmentProfileConfig)
    (ports_configuration : List PortConfiguration) :
    Except PluginError (List PortConfiguration) :=
  ports_configuration.mapM (fun port_config =>
    match protocol_segments.find? (fun i => i.id == port_config.protocol_segment_profile_id) with
    | none => throw .IndexError
    | some profile => pure { port_config with profile := profile })

/-- `PluginModel2544.__init__(**data)`: `super().__init__` validates the
fields in declaration order (`test_configuration`, `protocol_segments`,
`ports_configuration`, `test_types_configuration`), running each field's
validators in definition order; then the `__init__` body runs
`set_ports_rx_tx_type`, `check_port_groups_and_peers` and `set_profile`. -/
def pluginModel2544_init (data : RawPluginModel2544) :
    Except PluginError PluginModel2544 := do
  -- super().__init__: field validation in declaration order
  check_ip_properties data.protocol_segments data.ports_configuration
  check_port_count data.test_configuration data.ports_configuration
  check_modifier_mode_and_segments data.test_configuration data.ports_configuration
  check_port_group_validator data.ports_configuration
  check_test_type_enable data.test_types_configuration
  check_result_scope data.test_configuration data.test_types_configuration
  -- __init__ body
  let ports := set_ports_rx_tx_type data.test_configuration.direction data.ports_configuration
  check_port_groups_and_peers data.test_configuration ports
  let ports ← set_profile data.protocol_segments ports
  pure { test_configuration := data.test_configuration
         protocol_segments := data.protocol_segments
         ports_configuration := ports
         test_types_configuration := data.test_types_configuration }

/-! ### Aliasing model of profile binding

`set_profile` stores `profile.copy(deep=True)` on each port. To make the
copy observable, Python object identity is modelled with an explicit heap:
profile objects are cells of a store addressed by index, ports hold cell
addresses, and in-place mutation writes one cell. `copy(deep=True)` becomes
allocation of a fresh cell holding the same value; storing the template by
reference would instead reuse the template's address. -/

/-- The store of live `ProtocolSegmentProfileConfig` objects; an object
reference is an index into it. -/
abbrev ProfileHeap := List ProtocolSegmentProfileConfig

def ProfileHeap.read (h : ProfileHeap) (a : Nat) : Option ProtocolSegmentProfileConfig :=
  List.get? h a

def ProfileHeap.write (h : ProfileHeap) (a : Nat)
    (v : ProtocolSegmentProfileConfig) : ProfileHeap :=
  List.set h a v

/-- Allocate a fresh cell (Python object creation): returns the new heap and
the fresh address. -/
def ProfileHeap.alloc (h : ProfileHeap) (v : ProtocolSegmentProfileConfig) :
    ProfileHeap × Nat :=
  (h ++ [v], List.length h)

/-- A port as seen by the binding step: its referenced profile id and the
address of its currently bound profile object. -/
structure PortRef where
  protocol_segment_profile_id : String
  profile_ref : Nat
  deriving DecidableEq, Repr

/-- One iteration of the `set_profile` loop under the heap model: look up
the first template whose id matches (`[...][0]`, `none` on `IndexError`),
read the template object, allocate a fresh cell holding an equal value
(`profile.copy(deep=True)`) and point the port at the fresh cell. -/
def set_profile_step (templates : List (String × Nat)) (h : ProfileHeap)
    (port : PortRef) : Option (ProfileHeap × PortRef) := do
  let addr ← (templates.find? (fun t => t.1 == port.protocol_segment_profile_id)).map Prod.snd
  let tmpl ← h.read addr
  let (h, fresh) := h.alloc tmpl
  pure (h, { port with profile_ref := fresh })

/-- `set_profile` over a list of ports under the heap model, threading the
heap left to right. -/
def set_profile_heap (templates : List (String × Nat)) (h : ProfileHeap) :
    List PortRef → Option (ProfileHeap × List PortRef)
  | [] => some (h, [])
  | port :: rest => do
    let (h, port) ← set_profile_step templates h port
    let (h, rest) ← set_profile_heap templates h rest
    pure (h, port :: rest)

/-! ### Rate iteration / sweep options (m_test_type_config.py)

Percentages are embedded as `ℚ`. Pydantic v2 validates fields in declaration
order; a field's `Field(ge=..., le=..., gt=...)` constraint runs before its
`field_validator`, and `info.data` holds only the fields already
validated. -/

/-- A rate-option construction failure: a pydantic constraint violation
(`ValidationError`) or one of the named exceptions `RateRestriction` /
`RangeRestriction`. -/
inductive RateOptionError where
  | ValidationError
  | RateRestriction (value maximum : ℚ)
  | RangeRestriction
  deriving DecidableEq, Repr

/-- `RateIterationOptions` restricted to its percentage fields (the
`search_type` / `result_scope` enums take no part in the checks). -/
structure RateIterationOptions where
  initial_value_pct : ℚ
  maximum_value_pct : ℚ
  minimum_value_pct : ℚ
  value_resolution_pct : ℚ
  deriving DecidableEq, Repr

/-- `RateIterationOptions(**data)`: fields validated in declaration order
(`initial_value_pct`, `maximum_value_pct`, `minimum_value_pct`,
`value_resolution_pct`), each with `Field(ge=0.0, le=100.0)`. The validator
`check_if_larger_than_maximun` fires for `initial_value_pct` and
`minimum_value_pct` but is guarded by `"maximum_value_pct" in info.data`:
when `initial_value_pct` is validated, `maximum_value_pct` has not been
validated yet, so the guard is false and `initial > maximum` goes
unchecked; only the `minimum_value_pct` comparison is live. -/
def mkRateIterationOptions (initial_value_pct maximum_value_pct
    minimum_value_pct value_resolution_pct : ℚ) :
    Except RateOptionError RateIterationOptions :=
  if ¬(0 ≤ initial_value_pct ∧ initial_value_pct ≤ 100) then
    Except.error .ValidationError
  -- check_if_larger_than_maximun(initial_value_pct):
  --   "maximum_value_pct" not in info.data → no comparison performed
  else if ¬(0 ≤ maximum_value_pct ∧ maximum_value_pct ≤ 100) then
    Except.error .ValidationError
  else if ¬(0 ≤ minimum_value_pct ∧ minimum_value_pct ≤ 100) then
    Except.error .ValidationError
  -- check_if_larger_than_maximun(minimum_value_pct): maximum is in info.data
  else if minimum_value_pct > maximum_value_pct then
    Except.error (.RateRestriction minimum_value_pct maximum_value_pct)
  else if ¬(0 ≤ value_resolution_pct ∧ value_resolution_pct ≤ 100) then
    Except.error .ValidationError
  else
    Except.ok { initial_value_pct, maximum_value_pct, minimum_value_pct, value_resolution_pct }

/-- `RateSweepOptions`: percentage fields. -/
structure RateSweepOptions where
  start_value_pct : ℚ
  end_value_pct : ℚ
  step_value_pct : ℚ
  deriving DecidableEq, Repr

/-- `RateSweepOptions(**data)`: `start_value_pct` (no constraint), then
`end_value_pct` with `validate_end_value` (`start_value_pct` is already in
`info.data`, so `end < start` raises `RangeRestriction`), then
`step_value_pct` with `Field(gt=0.0)`. -/
def mkRateSweepOptions (start_value_pct end_value_pct step_value_pct : ℚ) :
    Except RateOptionError RateSweepOptions :=
  if end_value_pct < start_value_pct then
    Except.error .RangeRestriction
  else if ¬(0 < step_value_pct) then
    Except.error .ValidationError
  else
    Except.ok { start_value_pct, end_value_pct, step_value_pct }

end Plugin2544

namespace Plugin2889

/-- Modelled after `const.TidAllocationScope` (plugin2889/const is not under
src/): the three payload-identifier allocation policies used by
`TPLDIDController.alloc_new_tpld_id`. -/
inductive TidAllocationScope where
  | CONFIGURATION_SCOPE
  | RX_PORT_SCOPE
  | SOURCE_PORT_ID
  deriving DecidableEq, Repr

/-- Modelled after `const.PortGroup` (plugin2889): the port roles read by the
role counters (`dataset.py` uses EAST/WEST, SOURCE/DESTINATION and the
learning/monitoring/test-port triad, plus UNDEFINED). -/
inductive PortGroup where
  | EAST
  | WEST
  | SOURCE
  | DESTINATION
  | LEARNING_PORT
  | MONITORING_PORT
  | TEST_PORT
  | UNDEFINED
  deriving DecidableEq, Repr

/-- Modelled after `const.PacketSizeType` (plugin2889): the frame sizing
modes of `FrameSizeConfiguration`. -/
inductive PacketSizeType where
  | IETF_DEFAULT
  | CUSTOM_SIZES
  | RANGE
  | INCREMENTING
  | BUTTERFLY
  | RANDOM
  | MIX
  deriving DecidableEq, Repr

/-- The named validation failures of plugin2889 (`model/exceptions`) the
embedded operations can produce, plus `KeyError` for the bare Python
`KeyError` that dict subscription raises on an absent key in
`TestSuiteConfiguration2889.__init__`. `TPLDIDExceed` carries the oversized
id and the capability bound. -/
inductive PluginError where
  | MixWeightsNotEnough (required : Nat)
  | MixWeightsSumError (total : Nat)
  | TPLDIDExceed (tid cap : Nat)
  | PortRoleEnabledNotEnough (required : Nat)
  | PortRoleNotEnough (role : String) (required : Nat)
  | PortConfigNotEnough (required : Nat)
  | KeyError (key : String)
  deriving DecidableEq, Repr

/-- Follows the spec's words (§7: "All validation failures are distinct,
named conditions (not generic exceptions)"): whether a plugin2889 error
value is one of the named conditions of `model/exceptions` rather than the
generic Python `KeyError`. Stated only to be compared with what the binding
loop actually raises. -/
def PluginError.is_named_condition : PluginError → Bool
  | .KeyError _ => false
  | _ => true

/-! ### Payload identifier allocation (`TPLDIDController`) -/

/-- The slice of a live `GenericL23Port` the allocator reads: a stable key
(object identity, used as the `current_rx_port_tid` dict key),
`kind.port_id` and `info.capabilities.max_tpld_stats`. -/
structure GenericL23Port where
  key : Nat
  port_id : Nat
  max_tpld_stats : Nat
  deriving DecidableEq, Repr

/-- `TPLDIDController` state: the allocation scope, the per-destination-port
counters (`defaultdict(int)`, modelled as a total map defaulting to 0), the
global counter and the last id handed out. -/
structure TPLDIDController where
  tid_allocation_scope : TidAllocationScope
  current_rx_port_tid : Nat → Nat
  current_tid : Nat
  next_tid : Nat

/-- `TPLDIDController(scope)`: dataclass defaults — empty per-port counter
map, `current_tid = 0`, `next_tid = 0`. -/
def TPLDIDController.mk0 (scope : TidAllocationScope) : TPLDIDController :=
  { tid_allocation_scope := scope
    current_rx_port_tid := fun _ => 0
    current_tid := 0
    next_tid := 0 }

/-- `TPLDIDController.alloc_new_tpld_id`: picks `next_tid` per scope
(advancing the matching counter), then — faithfully to the source, which
evaluates `exceptions.TPLDIDExceed(...)` as a bare expression without
`raise` — discards the constructed exception and returns `next_tid`
unconditionally. The `Except` result type records that no error is ever
produced. The capability compared against is the **source** port's. -/
def alloc_new_tpld_id (c : TPLDIDController)
    (source_port destination_port : GenericL23Port) :
    Except PluginError (Nat × TPLDIDController) :=
  let c :=
    match c.tid_allocation_scope with
    | .CONFIGURATION_SCOPE =>
        { c with next_tid := c.current_tid, current_tid := c.current_tid + 1 }
    | .RX_PORT_SCOPE =>
        { c with
          next_tid := c.current_rx_port_tid destination_port.key
          current_rx_port_tid := fun k =>
            if k = destination_port.key then c.current_rx_port_tid destination_port.key + 1
            else c.current_rx_port_tid k }
    | .SOURCE_PORT_ID =>
        { c with next_tid := source_port.port_id }
  let _unraised_exception :=
    if c.next_tid > source_port.max_tpld_stats then
      some (PluginError.TPLDIDExceed c.next_tid source_port.max_tpld_stats)
    else none
  Except.ok (c.next_tid, c)

/-! ### Frame size configuration -/

/-- Modelled from the spec: `const.MIXED_DEFAULT_WEIGHTS` (plugin2889/const
is not under src/) — the default weight list of mixed frame sizing, one
weight per fixed reference size, summing to 100. -/
def MIXED_DEFAULT_WEIGHTS : List Nat :=
  [0, 0, 0, 0, 57, 3, 5, 1, 2, 5, 1, 4, 4, 18, 0, 0]

/-- Modelled from the spec: `const.DEFAULT_MIXED_PACKET_SIZE` — the fixed
reference sizes of mixed frame sizing (16 entries, one per weight; the
`FrameSizesOptions` overrides address indices 0, 1, 14 and 15 with defaults
56, 60, 9216 and 16360). -/
def DEFAULT_MIXED_PACKET_SIZE : List Nat :=
  [56, 60, 64, 70, 78, 92, 256, 496, 512, 570, 576, 594, 1438, 1518, 9216, 16360]

/-- `FrameSizeConfiguration` restricted to the fields
`check_mixed_weights_valid` reads. -/
structure FrameSizeConfiguration where
  packet_size_type : PacketSizeType
  mixed_sizes_weights : List Nat
  deriving DecidableEq, Repr

/-- `FrameSizeConfiguration.check_mixed_weights_valid`: in mixed mode the
weight count must equal `len(MIXED_DEFAULT_WEIGHTS)`
(`MixWeightsNotEnough`) and the weights must sum to 100
(`MixWeightsSumError`); other modes are not checked. -/
def check_mixed_weights_valid (c : FrameSizeConfiguration) :
    Except PluginError Unit :=
  if c.packet_size_type = .MIX then
    if c.mixed_sizes_weights.length ≠ MIXED_DEFAULT_WEIGHTS.length then
      Except.error (.MixWeightsNotEnough MIXED_DEFAULT_WEIGHTS.length)
    else if c.mixed_sizes_weights.sum ≠ 100 then
      Except.error (.MixWeightsSumError c.mixed_sizes_weights.sum)
    else Except.ok ()
  else Except.ok ()

/-- `FrameSizeConfiguration.__init__`: pydantic field validation (the fields
embedded here carry no validators) followed by `check_mixed_weights_valid`;
the raised error propagates, otherwise the object is the validated data. -/
def frameSizeConfiguration_init (c : FrameSizeConfiguration) :
    Except PluginError FrameSizeConfiguration :=
  match check_mixed_weights_valid c with
  | .error e => .error e
  | .ok _ => .ok c

/-! ### Port roles -/

/-- `PortRoleConfig`: one entry of a test type's `port_role_handler` map. -/
structure PortRoleConfig where
  is_used : Bool
  role : PortGroup
  peer_port_id : String
  deriving DecidableEq, Repr

/-- `PortRoleCounter`: count of used ports plus a per-role tally
(`by_roles` dict modelled as a total map defaulting to 0, matching
`.get(role, 0)`). -/
structure PortRoleCounter where
  enabled : Nat
  by_roles : PortGroup → Nat

/-- `PortRoleCounter()`: defaults `enabled = 0`, empty `by_roles`. -/
def PortRoleCounter.mk0 : PortRoleCounter := ⟨0, fun _ => 0⟩

/-- `PortRoleCounter.read`: `by_roles.get(role, 0)`. -/
def PortRoleCounter.read (c : PortRoleCounter) (role : PortGroup) : Nat :=
  c.by_roles role

/-- `PortRoleHandler`: `role_map` keyed by port guid, in insertion order. -/
structure PortRoleHandler where
  role_map : List (String × PortRoleConfig)
  deriving DecidableEq, Repr

/-- The body of the `role_counter` loop, applied to one `role_map` entry:
`enabled` is incremented only for used ports, but every port's declared role
is tallied into `by_roles`. -/
def role_counter_step (counter : PortRoleCounter) (entry : String × PortRoleConfig) :
    PortRoleCounter :=
  let port := entry.2
  let counter :=
    if port.is_used then { counter with enabled := counter.enabled + 1 } else counter
  { counter with by_roles := fun r =>
      if r = port.role then counter.by_roles port.role + 1 else counter.by_roles r }

/-- `PortRoleHandler.role_counter`: folds the loop body over the `role_map`
values starting from `PortRoleCounter()`. -/
def PortRoleHandler.role_counter (h : PortRoleHandler) : PortRoleCounter :=
  h.role_map.foldl role_counter_step PortRoleCounter.mk0

/-- `TestCaseBaseConfiguration.check_src_dest_port_roles` (with the
`port_role_handler` assert discharged by taking the handler as argument):
the enabled count must equal the requirement total, and the SOURCE and
DESTINATION role tallies must match exactly. -/
def check_src_dest_port_roles (h : PortRoleHandler)
    (require_src_ports require_dest_ports : Nat) : Except PluginError Unit := do
  if h.role_counter.enabled ≠ require_src_ports + require_dest_ports then
    throw (.PortRoleEnabledNotEnough (require_src_ports + require_dest_ports))
  if h.role_counter.read .SOURCE ≠ require_src_ports then
    throw (.PortRoleNotEnough "source" require_src_ports)
  if h.role_counter.read .DESTINATION ≠ require_dest_ports then
    -- the source passes `require_src_ports` as the count carried by this error
    throw (.PortRoleNotEnough "destination" require_src_ports)

/-! ### Latency/jitter reduction (`PortLatency` / `PortJitter`)

`Decimal` samples are embedded as `ℚ`. Python's `round(Decimal, 3)` rounds
half to even at the third decimal; the embedding assumes exact `Decimal`
division by 1000, which holds whenever the quotient fits the default 28
significant digits — true of every plausible nanosecond counter. -/

/-- Round a rational to the nearest integer, ties to even (the rounding of
Python's `round` on `Decimal`). Off ties it agrees with Mathlib's `round`
(nearest, ties up). -/
def roundHalfEven (x : ℚ) : ℤ :=
  if x - ⌊x⌋ = 1 / 2 then (if ⌊x⌋ % 2 = 0 then ⌊x⌋ else ⌊x⌋ + 1)
  else round x

/-- `round(value, 3)`: round at the third decimal, ties to even. -/
def roundTo3 (x : ℚ) : ℚ := (roundHalfEven (x * 1000) : ℚ) / 1000

/-- `~sys.maxsize` on a 64-bit CPython: `-(2^63)`. -/
def tilde_maxsize : ℤ := -(2 ^ 63)

/-- `PortLatency` state (`PortJitter` is the same dataclass with
`check_value_ = False`): per-identifier last means, running minimum and
maximum. -/
structure PortLatency where
  check_value_ : Bool := true
  average_ : List (Nat × ℚ) := []
  minimum_ : ℚ := 0
  maximum_ : ℚ := 0
  deriving DecidableEq, Repr

/-- `PortLatency()` with dataclass defaults. -/
def PortLatency.mk0 : PortLatency := {}

/-- `PortJitter()`: same state, plausibility filter disabled. -/
def PortJitter.mk0 : PortLatency := { check_value_ := false }

/-- `PortLatency._pre_process`: convert nanoseconds to microseconds
(`round(value / 1000, 3)`), then zero the converted sample when the
plausibility bound `value > ~sys.maxsize` fails — latency only
(`check_value_`); jitter keeps every converted sample. -/
def PortLatency.pre_process (s : PortLatency) (value : ℚ) : ℚ :=
  let value := roundTo3 (value / 1000)
  if s.check_value_ = true ∧ ¬(value > (tilde_maxsize : ℚ)) then 0 else value

/-- The `minimum` property setter: `if value := self._pre_process(value)` —
only a non-zero converted sample updates; the update is
`min(value, self.minimum_) if self.minimum_ else value`, so a first non-zero
sample sets the minimum outright. -/
def PortLatency.set_minimum (s : PortLatency) (value : ℚ) : PortLatency :=
  let value := s.pre_process value
  if value ≠ 0 then
    { s with minimum_ := if s.minimum_ ≠ 0 then min value s.minimum_ else value }
  else s

/-- The `maximum` property setter: `max(self._pre_process(value),
self.maximum_)` unconditionally. -/
def PortLatency.set_maximum (s : PortLatency) (value : ℚ) : PortLatency :=
  { s with maximum_ := max (s.pre_process value) s.maximum_ }

/-- `PortLatency.set_average`: a non-zero converted sample replaces the
stored mean for its identifier. -/
def PortLatency.set_average (s : PortLatency) (tpld_id : Nat) (value : ℚ) :
    PortLatency :=
  let value := s.pre_process value
  if value ≠ 0 then
    { s with average_ := (s.average_.filter (fun kv => kv.1 ≠ tpld_id)) ++ [(tpld_id, value)] }
  else s

/-- One raw sample delivered by the collection loop to a reducer: both the
`minimum` and `maximum` setters receive the raw nanosecond value. -/
def PortLatency.feed (s : PortLatency) (value : ℚ) : PortLatency :=
  (s.set_minimum value).set_maximum value

/-! ### Additive statistics (`StatisticsData`) -/

/-- `TxStream`: the per-transmitted-stream counters. -/
structure TxStream where
  tpld_id : ℤ
  packet : ℤ := 0
  pps : ℤ := 0
  deriving DecidableEq, Repr

/-- `RxTPLDId`: the per-received-payload-id counters. -/
structure RxTPLDId where
  packet : ℤ := 0
  pps : ℤ := 0
  deriving DecidableEq, Repr

/-- `StatisticsData`: Python ints as `ℤ`, the `loss_percent` Decimal as `ℚ`,
the two per-id dicts as association lists in insertion order, plus the
latency and jitter reducers. -/
structure StatisticsData where
  tx_packet : ℤ := 0
  tx_bps_l1 : ℤ := 0
  tx_bps_l2 : ℤ := 0
  tx_pps : ℤ := 0
  rx_packet : ℤ := 0
  rx_bps_l1 : ℤ := 0
  rx_bps_l2 : ℤ := 0
  rx_pps : ℤ := 0
  loss : ℤ := 0
  loss_percent : ℚ := 0
  fcs : ℤ := 0
  flood : ℤ := 0
  per_tx_stream : List (Nat × TxStream) := []
  per_rx_tpld_id : List (Nat × RxTPLDId) := []
  latency : PortLatency := PortLatency.mk0
  jitter : PortLatency := PortJitter.mk0
  deriving DecidableEq, Repr

/-- `StatisticsData.__add__`: for every field whose value is a
`numbers.Number` instance — the twelve int/Decimal scalars, but not the two
dicts and not the latency/jitter dataclasses — store `value + other.<field>`
on `self` and return `self`. The embedding is the value of the returned
object: scalars added, maps and reducers kept from the left operand. -/
def statisticsAdd (self other : StatisticsData) : StatisticsData :=
  { self with
    tx_packet := self.tx_packet + other.tx_packet
    tx_bps_l1 := self.tx_bps_l1 + other.tx_bps_l1
    tx_bps_l2 := self.tx_bps_l2 + other.tx_bps_l2
    tx_pps := self.tx_pps + other.tx_pps
    rx_packet := self.rx_packet + other.rx_packet
    rx_bps_l1 := self.rx_bps_l1 + other.rx_bps_l1
    rx_bps_l2 := self.rx_bps_l2 + other.rx_bps_l2
    rx_pps := self.rx_pps + other.rx_pps
    loss := self.loss + other.loss
    loss_percent := self.loss_percent + other.loss_percent
    fcs := self.fcs + other.fcs
    flood := self.flood + other.flood }

/-- The numeric scalar counters of a snapshot, as one tuple (the additive
part of `StatisticsData.__add__`). -/
def numericCounters (s : StatisticsData) :
    ℤ × ℤ × ℤ × ℤ × ℤ × ℤ × ℤ × ℤ × ℤ × ℚ × ℤ × ℤ :=
  (s.tx_packet, s.tx_bps_l1, s.tx_bps_l2, s.tx_pps, s.rx_packet, s.rx_bps_l1,
   s.rx_bps_l2, s.rx_pps, s.loss, s.loss_percent, s.fcs, s.flood)

/-- Elementwise addition of two per-transmitted-stream maps, following the
spec's words ("per-stream/per-payload maps combine by elementwise
addition"): keys of either side appear in the result, shared keys add their
counters. Stated only to be compared with `statisticsAdd`. -/
def specTxMapAdd (a b : List (Nat × TxStream)) : List (Nat × TxStream) :=
  (a.map (fun kv =>
    match b.find? (fun kv2 => kv2.1 == kv.1) with
    | some kv2 => (kv.1, { tpld_id := kv.2.tpld_id, packet := kv.2.packet + kv2.2.packet,
                           pps := kv.2.pps + kv2.2.pps })
    | none => kv))
  ++ b.filter (fun kv2 => (a.find? (fun kv => kv.1 == kv2.1)).isNone)

/-! ### Profile binding in `TestSuiteConfiguration2889.__init__` -/

/-- Modelled from the spec: plugin2889's `ProtocolSegmentProfileConfig`
(model/protocol_segment.py is not under src/) carries the same opaque id
and derived protocol version as plugin2544's. -/
abbrev ProtocolSegmentProfileConfig := Plugin2544.ProtocolSegmentProfileConfig

/-- `PortConfiguration` of plugin2889 restricted to the fields the
`TestSuiteConfiguration2889.__init__` binding loop reads and writes:
`profile_id` and the `profile` it assigns (default-constructed before
binding). -/
structure PortConfiguration where
  profile_id : String
  profile : ProtocolSegmentProfileConfig := {}
  deriving DecidableEq, Repr

/-- Python dict subscription `d[key]` on a `Dict[str, ...]` (insertion
order, last duplicate wins): the stored value, or a bare `KeyError` when
the key is absent. -/
def dictGet (d : List (String × ProtocolSegmentProfileConfig)) (key : String) :
    Except PluginError ProtocolSegmentProfileConfig :=
  match d.reverse.find? (fun kv => kv.1 == key) with
  | some kv => .ok kv.2
  | none => .error (.KeyError key)

/-- The profile-binding loop at the end of
`TestSuiteConfiguration2889.__init__`:
`port_conf.profile = self.protocol_segments[port_conf.profile_id].copy(deep=True)`
for every port configuration in order. No profile-id check precedes it, so
an absent id surfaces as the dict lookup's bare `KeyError`, not as a named
condition of `model/exceptions`. -/
def init_bind_profiles
    (ports_configuration : List (String × PortConfiguration))
    (protocol_segments : List (String × ProtocolSegmentProfileConfig)) :
    Except PluginError (List (String × PortConfiguration)) :=
  ports_configuration.mapM (fun entry => do
    let profile ← dictGet protocol_segments entry.2.profile_id
    pure (entry.1, { entry.2 with profile := profile }))

end Plugin2889

/-! ### Concrete instances used by witnesses, counterexamples and
failing-input evaluations -/

namespace Plugin2544

/-- An east-group port with both direction flags at their `True` default. -/
def sampleEastPort : PortConfiguration :=
  { port_slot := 0, peer_slot := none, port_group := .EAST,
    ip_address := some { address := ⟨167772161⟩ },
    protocol_segment_profile_id := "p1" }

/-- A west-group port with both direction flags at their `True` default. -/
def sampleWestPort : PortConfiguration :=
  { port_slot := 1, peer_slot := none, port_group := .WEST,
    ip_address := some { address := ⟨167772162⟩ },
    protocol_segment_profile_id := "p1" }

/-- A layer-3 (IPv4) protocol segment profile with id `"p1"`. -/
def sampleL3Profile : ProtocolSegmentProfileConfig :=
  { id := "p1", protocol_version := .IPV4 }

/-- The raw input for the modifier-mode/L3 conflict scenario: blocks
topology, east→west, modifier-based flow creation, two east/west ports both
bound (by id) to the layer-3 profile `"p1"`, throughput test enabled with
common result scope. -/
def sampleModifierL3Raw : RawPluginModel2544 :=
  { test_configuration :=
      { topology := .BLOCKS, direction := .EAST_TO_WEST,
        flow_creation_type := .MODIFIER_BASED }
    protocol_segments := [sampleL3Profile]
    ports_configuration := [sampleEastPort, sampleWestPort]
    test_types_configuration :=
      { throughput_test := { enabled := true, result_scope := .COMMON_RESULT }
        latency_test_enabled := false
        frame_loss_rate_test_enabled := false
        back_to_back_test_enabled := false } }

/-- The same raw input with the ports referencing a profile id absent from
`protocol_segments`. -/
def sampleMissingProfileRaw : RawPluginModel2544 :=
  { sampleModifierL3Raw with
    ports_configuration :=
      [{ sampleEastPort with protocol_segment_profile_id := "zzz" },
       { sampleWestPort with protocol_segment_profile_id := "zzz" }] }

end Plugin2544

namespace Plugin2889

/-- A port whose payload-id capability is 3 (`max_tpld_stats = 3`). -/
def samplePortSmallCap : GenericL23Port := { key := 0, port_id := 0, max_tpld_stats := 3 }

/-- A second port, also with payload-id capability 3. -/
def samplePortSmallCap2 : GenericL23Port := { key := 1, port_id := 1, max_tpld_stats := 3 }

/-- An allocator in configuration scope whose global counter has reached 5,
exceeding both sample ports' capability of 3. -/
def sampleExhaustedController : TPLDIDController :=
  { tid_allocation_scope := .CONFIGURATION_SCOPE
    current_rx_port_tid := fun _ => 0
    current_tid := 5
    next_tid := 0 }

/-- A role handler with two used ports (one source, one destination) and one
unused port that still declares the source role. -/
def sampleRoleHandler : PortRoleHandler :=
  { role_map :=
      [("guid_a", { is_used := true, role := .SOURCE, peer_port_id := "guid_b" }),
       ("guid_b", { is_used := true, role := .DESTINATION, peer_port_id := "guid_a" }),
       ("guid_c", { is_used := false, role := .SOURCE, peer_port_id := "" })] }

/-- Statistics snapshot with one transmitted-stream entry under payload id 0. -/
def sampleStatsWithStream : StatisticsData :=
  { tx_packet := 1, per_tx_stream := [(0, { tpld_id := 0, packet := 7, pps := 2 })] }

/-- Statistics snapshot with no transmitted-stream entries. -/
def sampleStatsPlain : StatisticsData := { rx_packet := 4 }

/-- A mixed-mode frame size configuration with only two weights. -/
def sampleMixedShortWeights : FrameSizeConfiguration :=
  { packet_size_type := .MIX, mixed_sizes_weights := [50, 50] }

/-- A plugin2889 port configuration referencing the absent profile id
`"zzz"`. -/
def samplePortMissingProfile : PortConfiguration := { profile_id := "zzz" }

/-- A profile mapping holding only the id `"p1"`. -/
def sampleProfileMap : List (String × ProtocolSegmentProfileConfig) :=
  [("p1", { id := "p1", protocol_version := .IPV4 })]

end Plugin2889

/-! ## Claim theorems -/

/-- **C1** Topology direction resolution: starting from both flags true,
`set_ports_rx_tx_type` under `EAST_TO_WEST` clears the RX flag of every
non-loop east-group port and the TX flag of every non-loop west-group port;
under `WEST_TO_EAST` the mirror holds; every loop port is skipped and keeps
both flags true. -/
theorem C1_topology_direction_resolution
    (direction : Plugin2544.TrafficDirection)
    (ports : List Plugin2544.PortConfiguration)
    (hstart : ∀ p ∈ ports, p.is_tx = true ∧ p.is_rx = true)
    (i : Nat) (p q : Plugin2544.PortConfiguration)
    (hp : ports[i]? = some p)
    (hq : (Plugin2544.set_ports_rx_tx_type direction ports)[i]? = some q) :
    (p.is_loop = true → q.is_tx = true ∧ q.is_rx = true)
    ∧ (p.is_loop = false →
        ((direction = .EAST_TO_WEST →
            (p.port_group.is_east = true → q.is_rx = false ∧ q.is_tx = true)
            ∧ (p.port_group.is_west = true → q.is_tx = false ∧ q.is_rx = true))
         ∧ (direction = .WEST_TO_EAST →
            (p.port_group.is_east = true → q.is_tx = false ∧ q.is_rx = true)
            ∧ (p.port_group.is_west = true → q.is_rx = false ∧ q.is_tx = true)))) := by
  have hmem : p ∈ ports := by
    obtain ⟨hlen, hget⟩ := List.getElem?_eq_some.mp hp
    exact hget ▸ List.getElem_mem hlen
  obtain ⟨htx, hrx⟩ := hstart p hmem
  rw [Plugin2544.set_ports_rx_tx_type, List.getElem?_map, hp] at hq
  have hq' : q = Plugin2544.resolve_one_port direction p := by
    simpa using hq.symm
  subst hq'
  constructor
  · intro hloop
    simp [Plugin2544.resolve_one_port, hloop, htx, hrx]
  · intro hloop
    cases hpg : p.port_group <;> cases direction <;>
      simp_all [Plugin2544.resolve_one_port, Plugin2544.PortGroup.is_east,
        Plugin2544.PortGroup.is_west, Plugin2544.PortConfiguration.set_rx_port,
        Plugin2544.PortConfiguration.set_tx_port]

/-- Witness for C1: instantiated at a two-port east/west list under
`EAST_TO_WEST`; the east port ends RX-cleared. -/
theorem C1_topology_direction_resolution_witness :
    (∀ p ∈ [Plugin2544.sampleEastPort, Plugin2544.sampleWestPort],
        p.is_tx = true ∧ p.is_rx = true)
    ∧ (Plugin2544.sampleEastPort.is_loop = false →
        ((Plugin2544.TrafficDirection.EAST_TO_WEST = .EAST_TO_WEST →
            (Plugin2544.sampleEastPort.port_group.is_east = true →
              (Plugin2544.resolve_one_port .EAST_TO_WEST Plugin2544.sampleEastPort).is_rx = false
              ∧ (Plugin2544.resolve_one_port .EAST_TO_WEST Plugin2544.sampleEastPort).is_tx = true)
            ∧ (Plugin2544.sampleEastPort.port_group.is_west = true →
              (Plugin2544.resolve_one_port .EAST_TO_WEST Plugin2544.sampleEastPort).is_tx = false
              ∧ (Plugin2544.resolve_one_port .EAST_TO_WEST Plugin2544.sampleEastPort).is_rx = true))
         ∧ (Plugin2544.TrafficDirection.EAST_TO_WEST = .WEST_TO_EAST →
            (Plugin2544.sampleEastPort.port_group.is_east = true →
              (Plugin2544.resolve_one_port .EAST_TO_WEST Plugin2544.sampleEastPort).is_tx = false
              ∧ (Plugin2544.resolve_one_port .EAST_TO_WEST Plugin2544.sampleEastPort).is_rx = true)
            ∧ (Plugin2544.sampleEastPort.port_group.is_west = true →
              (Plugin2544.resolve_one_port .EAST_TO_WEST Plugin2544.sampleEastPort).is_rx = false
              ∧ (Plugin2544.resolve_one_port .EAST_TO_WEST Plugin2544.sampleEastPort).is_tx = true)))) :=
  ⟨by decide,
   (C1_topology_direction_resolution .EAST_TO_WEST
      [Plugin2544.sampleEastPort, Plugin2544.sampleWestPort]
      (by decide) 0 Plugin2544.sampleEastPort
      (Plugin2544.resolve_one_port .EAST_TO_WEST Plugin2544.sampleEastPort)
      rfl rfl).2⟩

/-- **C2** (failing-input evaluation) The allocation operation does not
enforce the payload-id capacity: with the global counter at 5 and both
ports' capability 3, `alloc_new_tpld_id` returns the oversized id 5 without
raising `TPLDIDExceed` — the source constructs the exception but never
raises it (and compares against the source port, not the destination). -/
theorem C2_tpld_capacity_not_enforced :
    ∃ c', Plugin2889.alloc_new_tpld_id Plugin2889.sampleExhaustedController
        Plugin2889.samplePortSmallCap Plugin2889.samplePortSmallCap2
        = Except.ok (5, c')
      ∧ 5 > Plugin2889.samplePortSmallCap.max_tpld_stats
      ∧ 5 > Plugin2889.samplePortSmallCap2.max_tpld_stats := by
  refine ⟨_, rfl, by decide, by decide⟩

/-- Folding the role-counter loop body from any starting counter adds the
used-count to `enabled` and each role's declared-count to `by_roles`. -/
theorem roleCounterFold (l : List (String × Plugin2889.PortRoleConfig))
    (c : Plugin2889.PortRoleCounter) :
    ((l.foldl Plugin2889.role_counter_step c).enabled
        = c.enabled + l.countP (fun e => e.2.is_used))
    ∧ ∀ r, (l.foldl Plugin2889.role_counter_step c).by_roles r
        = c.by_roles r + l.countP (fun e => e.2.role == r) := by
  induction l generalizing c with
  | nil => simp
  | cons e t ih =>
    refine ⟨?_, fun r => ?_⟩
    · rw [List.foldl_cons, (ih _).1, List.countP_cons]
      by_cases hu : e.2.is_used
      · simp [Plugin2889.role_counter_step, hu]
        omega
      · simp [Plugin2889.role_counter_step, hu]
    · rw [List.foldl_cons, (ih _).2 r, List.countP_cons]
      by_cases hr : e.2.role = r
      · subst hr
        simp only [Plugin2889.role_counter_step]
        by_cases hu : e.2.is_used
        · simp [hu]
          omega
        · simp [hu]
          omega
      · have hr' : r ≠ e.2.role := fun h => hr h.symm
        simp only [Plugin2889.role_counter_step]
        by_cases hu : e.2.is_used
        · simp [hu, hr', hr]
        · simp [hu, hr', hr]

/-- **C10** Role counting: the derived role counter's `enabled` equals the
number of ports with `is_used`, while `read role` counts every port
declaring that role, used or not; consequently the unused source port of
`sampleRoleHandler` still drives `check_src_dest_port_roles 1 1` into the
source-role mismatch error. -/
theorem C10_role_counter_counts :
    (∀ (h : Plugin2889.PortRoleHandler) (role : Plugin2889.PortGroup),
      h.role_counter.enabled = h.role_map.countP (fun e => e.2.is_used)
      ∧ h.role_counter.read role = h.role_map.countP (fun e => e.2.role == role))
    ∧ Plugin2889.sampleRoleHandler.role_counter.enabled = 2
    ∧ Plugin2889.sampleRoleHandler.role_counter.read .SOURCE = 2
    ∧ Plugin2889.check_src_dest_port_roles Plugin2889.sampleRoleHandler 1 1
        = Except.error (.PortRoleNotEnough "source" 1) := by
  refine ⟨fun h role => ⟨?_, ?_⟩, by decide, by decide, by rfl⟩
  · simpa [Plugin2889.PortRoleHandler.role_counter, Plugin2889.PortRoleCounter.mk0]
      using (roleCounterFold h.role_map Plugin2889.PortRoleCounter.mk0).1
  · simpa [Plugin2889.PortRoleHandler.role_counter, Plugin2889.PortRoleCounter.read,
      Plugin2889.PortRoleCounter.mk0]
      using (roleCounterFold h.role_map Plugin2889.PortRoleCounter.mk0).2 role

/-- **C6** Allocator scope behavior: under receive-port scope the allocation
returns the destination's counter and increments only that destination's
counter; under configuration scope it returns the shared global counter and
increments it, regardless of the ports; in particular, from a fresh
allocator, two same-destination receive-scope calls return 0 then 1, and
two configuration-scope calls to different destinations return 0 then 1. -/
theorem C6_allocator_scope_behavior :
    (∀ (c : Plugin2889.TPLDIDController) (s d : Plugin2889.GenericL23Port),
      c.tid_allocation_scope = .RX_PORT_SCOPE →
      ∃ c', Plugin2889.alloc_new_tpld_id c s d
              = Except.ok (c.current_rx_port_tid d.key, c')
        ∧ c'.current_rx_port_tid d.key = c.current_rx_port_tid d.key + 1
        ∧ (∀ k, k ≠ d.key → c'.current_rx_port_tid k = c.current_rx_port_tid k)
        ∧ c'.current_tid = c.current_tid
        ∧ c'.tid_allocation_scope = c.tid_allocation_scope)
    ∧ (∀ (c : Plugin2889.TPLDIDController) (s d : Plugin2889.GenericL23Port),
      c.tid_allocation_scope = .CONFIGURATION_SCOPE →
      ∃ c', Plugin2889.alloc_new_tpld_id c s d = Except.ok (c.current_tid, c')
        ∧ c'.current_tid = c.current_tid + 1
        ∧ (∀ k, c'.current_rx_port_tid k = c.current_rx_port_tid k)
        ∧ c'.tid_allocation_scope = c.tid_allocation_scope)
    ∧ (∃ c1, Plugin2889.alloc_new_tpld_id
          (Plugin2889.TPLDIDController.mk0 .RX_PORT_SCOPE)
          Plugin2889.samplePortSmallCap Plugin2889.samplePortSmallCap2
          = Except.ok (0, c1)
        ∧ ∃ c2, Plugin2889.alloc_new_tpld_id c1
            Plugin2889.samplePortSmallCap Plugin2889.samplePortSmallCap2
            = Except.ok (1, c2)
          ∧ c2.current_rx_port_tid Plugin2889.samplePortSmallCap.key = 0)
    ∧ (∃ c1, Plugin2889.alloc_new_tpld_id
          (Plugin2889.TPLDIDController.mk0 .CONFIGURATION_SCOPE)
          Plugin2889.samplePortSmallCap Plugin2889.samplePortSmallCap2
          = Except.ok (0, c1)
        ∧ ∃ c2, Plugin2889.alloc_new_tpld_id c1
            Plugin2889.samplePortSmallCap2 Plugin2889.samplePortSmallCap
            = Except.ok (1, c2)) := by
  refine ⟨?_, ?_, ?_, ?_⟩
  · intro c s d h
    obtain ⟨scope, f, ct, nt⟩ := c
    simp only at h
    subst h
    exact ⟨_, rfl, by simp [Plugin2889.alloc_new_tpld_id],
      fun k hk => by simp [Plugin2889.alloc_new_tpld_id, hk], rfl, rfl⟩
  · intro c s d h
    obtain ⟨scope, f, ct, nt⟩ := c
    simp only at h
    subst h
    exact ⟨_, rfl, rfl, fun k => rfl, rfl⟩
  · exact ⟨_, rfl, _, rfl, rfl⟩
  · exact ⟨_, rfl, _, rfl⟩

/-- Witness for C6: the receive-port-scope branch instantiated at a fresh
allocator and the two sample ports. -/
theorem C6_allocator_scope_behavior_witness :
    (Plugin2889.TPLDIDController.mk0 .RX_PORT_SCOPE).tid_allocation_scope
      = .RX_PORT_SCOPE
    ∧ ∃ c', Plugin2889.alloc_new_tpld_id
          (Plugin2889.TPLDIDController.mk0 .RX_PORT_SCOPE)
          Plugin2889.samplePortSmallCap Plugin2889.samplePortSmallCap2
          = Except.ok ((Plugin2889.TPLDIDController.mk0 .RX_PORT_SCOPE).current_rx_port_tid
              Plugin2889.samplePortSmallCap2.key, c')
        ∧ c'.current_rx_port_tid Plugin2889.samplePortSmallCap2.key
            = (Plugin2889.TPLDIDController.mk0 .RX_PORT_SCOPE).current_rx_port_tid
                Plugin2889.samplePortSmallCap2.key + 1
        ∧ (∀ k, k ≠ Plugin2889.samplePortSmallCap2.key →
            c'.current_rx_port_tid k
              = (Plugin2889.TPLDIDController.mk0 .RX_PORT_SCOPE).current_rx_port_tid k)
        ∧ c'.current_tid = (Plugin2889.TPLDIDController.mk0 .RX_PORT_SCOPE).current_tid
        ∧ c'.tid_allocation_scope
            = (Plugin2889.TPLDIDController.mk0 .RX_PORT_SCOPE).tid_allocation_scope :=
  ⟨rfl, C6_allocator_scope_behavior.1 (Plugin2889.TPLDIDController.mk0 .RX_PORT_SCOPE)
    Plugin2889.samplePortSmallCap Plugin2889.samplePortSmallCap2 rfl⟩

/-- `roundHalfEven` is the identity on integers. -/
theorem roundHalfEven_intCast (n : ℤ) : Plugin2889.roundHalfEven (n : ℚ) = n := by
  simp [Plugin2889.roundHalfEven, Int.floor_intCast, round_intCast, sub_self]

/-- Converting an exact multiple of a thousandth is exact. -/
theorem roundTo3_thousandth (n : ℤ) :
    Plugin2889.roundTo3 ((n : ℚ) / 1000) = (n : ℚ) / 1000 := by
  unfold Plugin2889.roundTo3
  rw [div_mul_cancel₀ _ (by norm_num : (1000 : ℚ) ≠ 0), roundHalfEven_intCast]

/-- A converted sample strictly above the plausibility bound passes
`_pre_process` unchanged, for latency and jitter alike. -/
theorem pre_process_plausible (s : Plugin2889.PortLatency) (n : ℤ)
    (h : (n : ℚ) / 1000 > (Plugin2889.tilde_maxsize : ℚ)) :
    s.pre_process (n : ℚ) = (n : ℚ) / 1000 := by
  simp only [Plugin2889.PortLatency.pre_process, roundTo3_thousandth]
  rw [if_neg]
  intro hc
  exact hc.2 h

/-- **C5** Latency reduction: every raw nanosecond sample is divided by 1000
and rounded to 3 decimals; the latency reducer (but not jitter) zeroes a
converted sample failing the `> ~sys.maxsize` plausibility bound; the
running minimum takes `min(new, previous)` only for a non-zero converted
sample (a first non-zero sample sets it) while the maximum takes
`max(new, previous)` unconditionally; feeding raw samples 500000 ns then
250000 ns leaves minimum 250.000 and maximum 500.000. -/
theorem C5_latency_reduction :
    (∀ v : ℚ, Plugin2889.PortLatency.mk0.pre_process v
        = if Plugin2889.roundTo3 (v / 1000) > (Plugin2889.tilde_maxsize : ℚ) then
            Plugin2889.roundTo3 (v / 1000) else 0)
    ∧ (∀ v : ℚ, Plugin2889.PortJitter.mk0.pre_process v = Plugin2889.roundTo3 (v / 1000))
    ∧ Plugin2889.PortLatency.mk0.pre_process (-(2 ^ 80)) = 0
    ∧ Plugin2889.PortJitter.mk0.pre_process (-(2 ^ 80)) ≠ 0
    ∧ (∀ (s : Plugin2889.PortLatency) (v : ℚ),
        (s.set_minimum v).minimum_
          = if s.pre_process v ≠ 0 then
              (if s.minimum_ ≠ 0 then min (s.pre_process v) s.minimum_ else s.pre_process v)
            else s.minimum_)
    ∧ (∀ (s : Plugin2889.PortLatency) (v : ℚ),
        (s.set_maximum v).maximum_ = max (s.pre_process v) s.maximum_)
    ∧ ((Plugin2889.PortLatency.mk0.feed 500000).feed 250000).minimum_ = 250
    ∧ ((Plugin2889.PortLatency.mk0.feed 500000).feed 250000).maximum_ = 500 := by
  have hbig : Plugin2889.roundTo3 ((-(2 ^ 80) : ℚ) / 1000) = (-(2 ^ 80) : ℚ) / 1000 := by
    have := roundTo3_thousandth (-(2 ^ 80))
    push_cast at this
    exact this
  have hle : ¬((-(2 ^ 80) : ℚ) / 1000 > (Plugin2889.tilde_maxsize : ℚ)) := by
    rw [Plugin2889.tilde_maxsize]
    push_cast
    norm_num
  have hminrule : ∀ (s : Plugin2889.PortLatency) (v : ℚ),
      (s.set_minimum v).minimum_
        = if s.pre_process v ≠ 0 then
            (if s.minimum_ ≠ 0 then min (s.pre_process v) s.minimum_ else s.pre_process v)
          else s.minimum_ := by
    intro s v
    simp only [Plugin2889.PortLatency.set_minimum]
    split_ifs with h1 <;> simp_all
  have hmaxrule : ∀ (s : Plugin2889.PortLatency) (v : ℚ),
      (s.set_maximum v).maximum_ = max (s.pre_process v) s.maximum_ := fun _ _ => rfl
  have hpre : ∀ (s : Plugin2889.PortLatency) (n : ℤ),
      s.check_value_ = true → (0 : ℚ) < n →
      s.pre_process (n : ℚ) = (n : ℚ) / 1000 := by
    intro s n _ hn
    refine pre_process_plausible s n ?_
    rw [Plugin2889.tilde_maxsize]
    push_cast
    have : (0 : ℚ) < 2 ^ 63 := by positivity
    calc (-(2 ^ 63) : ℚ) < 0 := by linarith
      _ ≤ (n : ℚ) / 1000 := by positivity
  have h500 : Plugin2889.PortLatency.mk0.pre_process 500000 = 500 := by
    have := hpre Plugin2889.PortLatency.mk0 500000 rfl (by norm_num)
    push_cast at this
    rw [this]
    norm_num
  -- the state after the first feed
  set s1 := Plugin2889.PortLatency.mk0.set_minimum 500000 with hs1
  set t1 := s1.set_maximum 500000 with ht1
  have hs1chk : s1.check_value_ = true := by
    rw [hs1]
    simp only [Plugin2889.PortLatency.set_minimum]
    split_ifs <;> rfl
  have hs1min : s1.minimum_ = 500 := by
    rw [hs1, hminrule, h500]
    norm_num [Plugin2889.PortLatency.mk0]
  have hs1max : s1.maximum_ = 0 := by
    rw [hs1]
    simp only [Plugin2889.PortLatency.set_minimum]
    split_ifs <;> rfl
  have hs1pre : s1.pre_process 500000 = 500 := by
    have := hpre s1 500000 hs1chk (by norm_num)
    push_cast at this
    rw [this]
    norm_num
  have ht1min : t1.minimum_ = 500 := by rw [ht1]; exact hs1min
  have ht1chk : t1.check_value_ = true := by rw [ht1]; exact hs1chk
  have ht1max : t1.maximum_ = 500 := by
    rw [ht1, hmaxrule, hs1pre, hs1max]
    norm_num
  have ht1pre : t1.pre_process 250000 = 250 := by
    have := hpre t1 250000 ht1chk (by norm_num)
    push_cast at this
    rw [this]
    norm_num
  -- the state after the second feed
  set s2 := t1.set_minimum 250000 with hs2
  have hs2min : s2.minimum_ = 250 := by
    rw [hs2, hminrule, ht1pre, ht1min]
    norm_num
  have hs2chk : s2.check_value_ = true := by
    rw [hs2]
    simp only [Plugin2889.PortLatency.set_minimum]
    split_ifs <;> exact ht1chk
  have hs2max : s2.maximum_ = 500 := by
    rw [hs2]
    simp only [Plugin2889.PortLatency.set_minimum]
    split_ifs <;> exact ht1max
  have hs2pre : s2.pre_process 250000 = 250 := by
    have := hpre s2 250000 hs2chk (by norm_num)
    push_cast at this
    rw [this]
    norm_num
  have hfeed : (Plugin2889.PortLatency.mk0.feed 500000).feed 250000
      = s2.set_maximum 250000 := rfl
  refine ⟨?_, ?_, ?_, ?_, hminrule, hmaxrule, ?_, ?_⟩
  · intro v
    simp only [Plugin2889.PortLatency.pre_process, Plugin2889.PortLatency.mk0]
    by_cases h : Plugin2889.roundTo3 (v / 1000) > (Plugin2889.tilde_maxsize : ℚ) <;>
      simp [h]
  · intro v
    simp [Plugin2889.PortLatency.pre_process, Plugin2889.PortJitter.mk0]
  · simp only [Plugin2889.PortLatency.pre_process, Plugin2889.PortLatency.mk0]
    simp [hbig, hle]
  · have : Plugin2889.PortJitter.mk0.pre_process (-(2 ^ 80)) = (-(2 ^ 80) : ℚ) / 1000 := by
      simp [Plugin2889.PortLatency.pre_process, Plugin2889.PortJitter.mk0, hbig]
    rw [this]
    norm_num
  · rw [hfeed]
    show s2.minimum_ = 250
    exact hs2min
  · rw [hfeed, hmaxrule, hs2pre, hs2max]
    norm_num

/-- **C4** (counterexample) Snapshot combination is not elementwise addition
on the per-transmitted-stream map: adding a snapshot carrying a stream entry
to one without it drops the entry, differing from the spec-worded
elementwise map addition. -/
theorem C4_map_addition_counterexample :
    (Plugin2889.statisticsAdd Plugin2889.sampleStatsPlain
        Plugin2889.sampleStatsWithStream).per_tx_stream
      ≠ Plugin2889.specTxMapAdd Plugin2889.sampleStatsPlain.per_tx_stream
          Plugin2889.sampleStatsWithStream.per_tx_stream := by
  decide

/-- **C4** (amended) Snapshot combination adds exactly the twelve numeric
scalar counters elementwise and keeps the left operand's per-stream and
per-payload-id maps and latency/jitter reducers; it is associative, and
commutative on the numeric counters, so any folding order yields the same
numeric totals. -/
theorem C4_scalar_addition_assoc_comm (a b c : Plugin2889.StatisticsData) :
    Plugin2889.statisticsAdd (Plugin2889.statisticsAdd a b) c
      = Plugin2889.statisticsAdd a (Plugin2889.statisticsAdd b c)
    ∧ Plugin2889.numericCounters (Plugin2889.statisticsAdd a b)
      = Plugin2889.numericCounters (Plugin2889.statisticsAdd b a)
    ∧ (Plugin2889.statisticsAdd a b).per_tx_stream = a.per_tx_stream
    ∧ (Plugin2889.statisticsAdd a b).per_rx_tpld_id = a.per_rx_tpld_id
    ∧ (Plugin2889.statisticsAdd a b).latency = a.latency
    ∧ (Plugin2889.statisticsAdd a b).jitter = a.jitter := by
  refine ⟨?_, ?_, rfl, rfl, rfl, rfl⟩
  · simp [Plugin2889.statisticsAdd, add_assoc]
  · simp [Plugin2889.numericCounters, Plugin2889.statisticsAdd]
    refine ⟨add_comm _ _, add_comm _ _, add_comm _ _, add_comm _ _, add_comm _ _,
      add_comm _ _, add_comm _ _, add_comm _ _, add_comm _ _, add_comm _ _,
      add_comm _ _, add_comm _ _⟩

/-- **C8** Mixed frame-size validity: construction succeeds in mixed mode
exactly when the weight count equals the fixed reference-size count (which
equals the default weight count the source compares against) and the
weights sum to 100, raising the matching mix-weights error otherwise;
non-mixed modes are not subject to the check. -/
theorem C8_mixed_weights_validity :
    Plugin2889.MIXED_DEFAULT_WEIGHTS.length
      = Plugin2889.DEFAULT_MIXED_PACKET_SIZE.length
    ∧ ∀ (cfg : Plugin2889.FrameSizeConfiguration),
      (Plugin2889.frameSizeConfiguration_init cfg = Except.ok cfg
        ↔ (cfg.packet_size_type = .MIX →
            cfg.mixed_sizes_weights.length = Plugin2889.DEFAULT_MIXED_PACKET_SIZE.length
            ∧ cfg.mixed_sizes_weights.sum = 100))
      ∧ (cfg.packet_size_type ≠ .MIX →
          Plugin2889.frameSizeConfiguration_init cfg = Except.ok cfg)
      ∧ (cfg.packet_size_type = .MIX →
          cfg.mixed_sizes_weights.length ≠ Plugin2889.DEFAULT_MIXED_PACKET_SIZE.length →
          Plugin2889.frameSizeConfiguration_init cfg
            = Except.error (.MixWeightsNotEnough Plugin2889.MIXED_DEFAULT_WEIGHTS.length))
      ∧ (cfg.packet_size_type = .MIX →
          cfg.mixed_sizes_weights.length = Plugin2889.DEFAULT_MIXED_PACKET_SIZE.length →
          cfg.mixed_sizes_weights.sum ≠ 100 →
          Plugin2889.frameSizeConfiguration_init cfg
            = Except.error (.MixWeightsSumError cfg.mixed_sizes_weights.sum)) := by
  have hlen : Plugin2889.MIXED_DEFAULT_WEIGHTS.length
      = Plugin2889.DEFAULT_MIXED_PACKET_SIZE.length := by decide
  refine ⟨hlen, fun cfg => ?_⟩
  by_cases hmix : cfg.packet_size_type = Plugin2889.PacketSizeType.MIX
  · by_cases hl : cfg.mixed_sizes_weights.length = Plugin2889.DEFAULT_MIXED_PACKET_SIZE.length
    · have hl' : cfg.mixed_sizes_weights.length = Plugin2889.MIXED_DEFAULT_WEIGHTS.length :=
        hlen ▸ hl
      by_cases hs : cfg.mixed_sizes_weights.sum = 100
      · have hok : Plugin2889.frameSizeConfiguration_init cfg = Except.ok cfg := by
          simp [Plugin2889.frameSizeConfiguration_init,
            Plugin2889.check_mixed_weights_valid, hmix, hl', hs]
        refine ⟨?_, fun h => absurd hmix h, fun _ h => absurd hl h,
          fun _ _ h => absurd hs h⟩
        simp [hok, hl, hs]
      · have herr : Plugin2889.frameSizeConfiguration_init cfg
            = Except.error (.MixWeightsSumError cfg.mixed_sizes_weights.sum) := by
          simp [Plugin2889.frameSizeConfiguration_init,
            Plugin2889.check_mixed_weights_valid, hmix, hl', hs]
        refine ⟨?_, fun h => absurd hmix h, fun _ h => absurd hl h,
          fun _ _ _ => herr⟩
        constructor
        · intro h
          rw [herr] at h
          exact absurd h (by simp)
        · intro h
          exact absurd (h hmix).2 hs
    · have hl' : cfg.mixed_sizes_weights.length ≠ Plugin2889.MIXED_DEFAULT_WEIGHTS.length :=
        fun h => hl (hlen ▸ h)
      have herr : Plugin2889.frameSizeConfiguration_init cfg
          = Except.error (.MixWeightsNotEnough Plugin2889.MIXED_DEFAULT_WEIGHTS.length) := by
        simp [Plugin2889.frameSizeConfiguration_init,
          Plugin2889.check_mixed_weights_valid, hmix, hl']
      refine ⟨?_, fun h => absurd hmix h, fun _ _ => herr, fun _ h => absurd h hl⟩
      constructor
      · intro h
        rw [herr] at h
        exact absurd h (by simp)
      · intro h
        exact absurd (h hmix).1 hl
  · have hok : Plugin2889.frameSizeConfiguration_init cfg = Except.ok cfg := by
      simp [Plugin2889.frameSizeConfiguration_init,
        Plugin2889.check_mixed_weights_valid, hmix]
    exact ⟨by simp [hok, hmix], fun _ => hok, fun h => absurd h hmix,
      fun h => absurd h hmix⟩

/-- Witness for C8: the mixed configuration with only two weights is
rejected with `MixWeightsNotEnough 16`. -/
theorem C8_mixed_weights_validity_witness :
    Plugin2889.sampleMixedShortWeights.packet_size_type = .MIX
    ∧ Plugin2889.sampleMixedShortWeights.mixed_sizes_weights.length
        ≠ Plugin2889.DEFAULT_MIXED_PACKET_SIZE.length
    ∧ Plugin2889.frameSizeConfiguration_init Plugin2889.sampleMixedShortWeights
        = Except.error (.MixWeightsNotEnough Plugin2889.MIXED_DEFAULT_WEIGHTS.length) :=
  ⟨rfl, by decide,
   (C8_mixed_weights_validity.2 Plugin2889.sampleMixedShortWeights).2.2.1 rfl (by decide)⟩

/-- **C7** (failing-input evaluation) Rate-bound ordering is not enforced
for the initial value: `RateIterationOptions` with `initial_value_pct = 50`
and `maximum_value_pct = 40` is accepted — the initial-vs-maximum validator
consults `info.data` before `maximum_value_pct` has been validated, so it
never fires — while the minimum-vs-maximum comparison and the sweep
`start ≤ end` check do fire. -/
theorem C7_initial_above_maximum_accepted :
    Plugin2544.mkRateIterationOptions 50 40 30 1
      = Except.ok { initial_value_pct := 50, maximum_value_pct := 40,
                    minimum_value_pct := 30, value_resolution_pct := 1 }
    ∧ (50 : ℚ) > 40
    ∧ Plugin2544.mkRateIterationOptions 50 90 95 1
        = Except.error (.RateRestriction 95 90)
    ∧ Plugin2544.mkRateSweepOptions 60 20 5 = Except.error .RangeRestriction := by
  refine ⟨?_, by norm_num, ?_, ?_⟩
  · rw [Plugin2544.mkRateIterationOptions]
    rw [if_neg (by norm_num), if_neg (by norm_num), if_neg (by norm_num),
      if_neg (by norm_num), if_neg (by norm_num)]
  · rw [Plugin2544.mkRateIterationOptions]
    rw [if_neg (by norm_num), if_neg (by norm_num), if_neg (by norm_num),
      if_pos (by norm_num)]
  · rw [Plugin2544.mkRateSweepOptions]
    rw [if_pos (by norm_num)]

/-- **C3** (failing-input evaluation) The modifier-mode/L3 check never
fires: a configuration with modifier-based flow creation whose every port
references (and ends up bound to) a layer-3 profile is accepted — the
validator runs during field validation, before `set_profile` binds the
profiles, so it only ever sees the default non-L3 profile. -/
theorem C3_modifier_l3_check_never_fires :
    ∃ m, Plugin2544.pluginModel2544_init Plugin2544.sampleModifierL3Raw = Except.ok m
      ∧ Plugin2544.sampleModifierL3Raw.test_configuration.flow_creation_type.is_stream_based
          = false
      ∧ ∀ p ∈ m.ports_configuration, p.profile.protocol_version.is_l3 = true := by
  refine ⟨_, rfl, rfl, by decide⟩

/-- **C9** (counterexample) In plugin2889, binding a port whose profile id
is absent from the mapping fails with the bare Python `KeyError` of the
dict subscription — which is not one of the named conditions of
`model/exceptions` — not with a profile-missing error as the claim states. -/
theorem C9_missing_profile_raises_keyerror :
    Plugin2889.init_bind_profiles
        [("guid_a", Plugin2889.samplePortMissingProfile)] Plugin2889.sampleProfileMap
      = Except.error (Plugin2889.PluginError.KeyError "zzz")
    ∧ (Plugin2889.PluginError.KeyError "zzz").is_named_condition = false :=
  ⟨rfl, rfl⟩

/-- **C9** (amended) Profile binding yields independent deep copies: binding
two ports to the same template allocates two fresh profile objects distinct
from each other and from the template, so writing through one port's
reference leaves the other port's and the template's objects unchanged. A
port referencing an absent profile id makes plugin2544 construction fail
with the named `PSPMissing` error, while the plugin2889 binding loop raises
a bare `KeyError` for it. -/
theorem C9_profile_binding_deep_copies :
    (∀ v w : Plugin2544.ProtocolSegmentProfileConfig,
      ∃ h ports', Plugin2544.set_profile_heap [("p", 0)] [v]
          [{ protocol_segment_profile_id := "p", profile_ref := 0 },
           { protocol_segment_profile_id := "p", profile_ref := 0 }] = some (h, ports')
        ∧ ports' = [{ protocol_segment_profile_id := "p", profile_ref := 1 },
                    { protocol_segment_profile_id := "p", profile_ref := 2 }]
        ∧ h.read 0 = some v ∧ h.read 1 = some v ∧ h.read 2 = some v
        ∧ (h.write 1 w).read 2 = some v
        ∧ (h.write 1 w).read 0 = some v
        ∧ (h.write 1 w).read 1 = some w)
    ∧ Plugin2544.pluginModel2544_init Plugin2544.sampleMissingProfileRaw
        = Except.error .PSPMissing
    ∧ Plugin2889.init_bind_profiles
        [("guid_a", Plugin2889.samplePortMissingProfile)] Plugin2889.sampleProfileMap
        = Except.error (Plugin2889.PluginError.KeyError "zzz") := by
  refine ⟨?_, rfl, rfl⟩
  intro v w
  exact ⟨_, _, rfl, rfl, rfl, rfl, rfl, rfl, rfl, rfl⟩
